import Mathlib

/-!
Verification development for the dynamo-mapper expression builder and
key-condition compiler.  The Rust sources are shallowly embedded: pure
functions become Lean functions, `HashMap` is modelled by its observable
get/insert/extend behaviour, and functions that may panic return `Option`
(`none` models the panic).
-/

namespace DynamoMapper

/-- A string-keyed map, modelling `std::collections::HashMap<String, _>` through
its observable lookup behaviour. -/
def StrMap (α : Type) : Type := String → Option α

/-- The empty map (`HashMap::new` / `Default::default`). -/
def StrMap.empty {α : Type} : StrMap α := fun _ => none

/-- `HashMap::insert`: the inserted key now maps to the new value, every other
key is unchanged. -/
def StrMap.insert {α : Type} (m : StrMap α) (k : String) (v : α) : StrMap α :=
  fun q => if q = k then some v else m q

/-- `HashMap::get`. -/
def StrMap.get {α : Type} (m : StrMap α) (k : String) : Option α := m k

/-- `HashMap::extend`: every entry of `n` is inserted into `m`, so keys of `n`
win on collision and all other keys keep their value from `m`. -/
def StrMap.extend {α : Type} (m n : StrMap α) : StrMap α :=
  fun k =>
    match n k with
    | some v => some v
    | none => m k

/-- `aws_sdk_dynamodb::types::AttributeValue` (src/helpers/attribute_value.rs
uses the same variants; blobs are modelled as byte lists). -/
inductive AttributeValue : Type where
  | B (blob : List Nat)
  | Bool (b : Bool)
  | Bs (blobs : List (List Nat))
  | L (list : List AttributeValue)
  | M (map : List (String × AttributeValue))
  | N (n : String)
  | Ns (ns : List String)
  | Null (b : Bool)
  | S (s : String)
  | Ss (ss : List String)

/-- `Item` alias from src/lib.rs: `HashMap<String, AttributeValue>`. -/
def Item : Type := StrMap AttributeValue

/-- `helpers::attribute_value::AttributeMap`, the builder wrapper over `Item`. -/
structure AttributeMap where
  item : Item

/-- `AttributeMap::new`. -/
def AttributeMap.new : AttributeMap := ⟨StrMap.empty⟩

/-- `AttributeMap::set`. -/
def AttributeMap.set (m : AttributeMap) (k : String) (v : AttributeValue) : AttributeMap :=
  ⟨m.item.insert k v⟩

/-- `AttributeMap::into_item`. -/
def AttributeMap.into_item (m : AttributeMap) : Item := m.item

/-- `Vec<String>::join(sep)` as used by the renderers. -/
def joinStrings (sep : String) : List String → String
  | [] => ""
  | [s] => s
  | s :: rest => s ++ sep ++ joinStrings sep rest

end DynamoMapper

namespace DynamoMapper.CondExpr

/-!
Embedding of src/helpers/condition_expression.rs, the eagerly rendered
condition-expression module used by the Query operation.
-/

/-- `Operand`: a piece of trusted expression text. -/
structure Operand where
  val : String

/-- `Operand::new`. -/
def Operand.new (value : String) : Operand := ⟨value⟩

/-- `Expression`: an already rendered condition expression. -/
structure Expression where
  val : String

/-- `Operand::compare`, the shared comparison compiler. -/
def Operand.compare (o : Operand) (operator : String) (operand : Operand) : Expression :=
  ⟨o.val ++ " " ++ operator ++ " " ++ operand.val⟩

/-- `Operand::eq`. -/
def Operand.eq (o : Operand) (operand : Operand) : Expression := o.compare ("=") operand

/-- `Operand::ne`. -/
def Operand.ne (o : Operand) (operand : Operand) : Expression := o.compare ("<>") operand

/-- `Operand::lt`. -/
def Operand.lt (o : Operand) (operand : Operand) : Expression := o.compare ("<") operand

/-- `Operand::lte`. -/
def Operand.lte (o : Operand) (operand : Operand) : Expression := o.compare ("<=") operand

/-- `Operand::gt`. -/
def Operand.gt (o : Operand) (operand : Operand) : Expression := o.compare (">") operand

/-- `Operand::gte`. -/
def Operand.gte (o : Operand) (operand : Operand) : Expression := o.compare (">=") operand

/-- `Operand::between`. -/
def Operand.between (o : Operand) (f t : Operand) : Expression :=
  ⟨o.val ++ " BETWEEN " ++ f.val ++ " AND " ++ t.val⟩

/-- `Operand::any` (IN-list). -/
def Operand.any (o : Operand) (operands : List Operand) : Expression :=
  ⟨o.val ++ " IN (" ++ joinStrings (", ") (operands.map Operand.val) ++ ")"⟩

/-- `Expression::connect`. -/
def Expression.connect (e : Expression) (operator : String) (expr : Expression) : Expression :=
  ⟨e.val ++ " " ++ operator ++ " " ++ expr.val⟩

/-- `Expression::and`. -/
def Expression.and (e : Expression) (expr : Expression) : Expression :=
  e.connect ("AND") expr

/-- `Expression::or`. -/
def Expression.or (e : Expression) (expr : Expression) : Expression :=
  e.connect ("OR") expr

/-- `wrap`: parenthesize an expression. -/
def wrap (expr : Expression) : Expression := ⟨"(" ++ expr.val ++ ")"⟩

/-- `not`: denial expression. -/
def not (expr : Expression) : Expression := ⟨"NOT " ++ expr.val⟩

/-- Built-in function `attribute_exists`. -/
def attribute_exists (operand : Operand) : Expression :=
  ⟨"attribute_exists (" ++ operand.val ++ ")"⟩

/-- Built-in function `attribute_not_exists`. -/
def attribute_not_exists (operand : Operand) : Expression :=
  ⟨"attribute_not_exists (" ++ operand.val ++ ")"⟩

/-- Built-in function `attribute_type`. -/
def attribute_type (operand : Operand) (ty : Operand) : Expression :=
  ⟨"attribute_type (" ++ operand.val ++ ", " ++ ty.val ++ ")"⟩

/-- Built-in function `begins_with`. -/
def begins_with (operand : Operand) (substr : Operand) : Expression :=
  ⟨"begins_with (" ++ operand.val ++ ", " ++ substr.val ++ ")"⟩

/-- Built-in function `contains`. -/
def contains (path : Operand) (operand : Operand) : Expression :=
  ⟨"contains (" ++ path.val ++ ", " ++ operand.val ++ ")"⟩

/-- Built-in function `size`; its result is a new `Operand`. -/
def size (operand : Operand) : Operand := ⟨"size (" ++ operand.val ++ ")"⟩

end DynamoMapper.CondExpr

namespace DynamoMapper.Condition

/-!
Embedding of src/helpers/expression/operand.rs and
src/helpers/expression/condition.rs, the AST-based condition-expression
compiler.
-/

/-- `Operand` from src/helpers/expression/operand.rs. -/
structure Operand where
  val : String

/-- `Operand::new`. -/
def Operand.new (value : String) : Operand := ⟨value⟩

/-- `Comperator`: the closed comparator enum (the source spells it this way). -/
inductive Comperator : Type where
  | Eq
  | Ne
  | Lt
  | Lte
  | Gt
  | Gte

/-- `impl fmt::Display for Comperator`. -/
def Comperator.render : Comperator → String
  | .Eq => "="
  | .Ne => "<>"
  | .Lt => "<"
  | .Lte => "<="
  | .Gt => ">"
  | .Gte => ">="

/-- `ConditionalFunction`: the closed enum of built-in predicates. -/
inductive ConditionalFunction : Type where
  | AttributeExists (operand : Operand)
  | AttributeNotExists (operand : Operand)
  | AttributeType (path : Operand) (ty : Operand)
  | BeginsWith (path : Operand) (substr : Operand)
  | Contains (path : Operand) (operand : Operand)

/-- `impl fmt::Display for ConditionalFunction`. -/
def ConditionalFunction.render : ConditionalFunction → String
  | .AttributeExists operand => "attribute_exists (" ++ operand.val ++ ")"
  | .AttributeNotExists operand => "attribute_not_exists (" ++ operand.val ++ ")"
  | .AttributeType path ty => "attribute_type (" ++ path.val ++ ", " ++ ty.val ++ ")"
  | .BeginsWith path substr => "begins_with (" ++ path.val ++ ", " ++ substr.val ++ ")"
  | .Contains path operand => "contains (" ++ path.val ++ ", " ++ operand.val ++ ")"

/-- `ConditionExpression`, the condition AST. -/
inductive ConditionExpression : Type where
  | Compare (left : Operand) (right : Operand) (comperator : Comperator)
  | Between (operand : Operand) (f : Operand) (t : Operand)
  | Any (operand : Operand) (values : List Operand)
  | Function (function : ConditionalFunction)
  | And (left : ConditionExpression) (right : ConditionExpression)
  | Or (left : ConditionExpression) (right : ConditionExpression)
  | Not (expr : ConditionExpression)
  | Parentheses (expr : ConditionExpression)

/-- `impl fmt::Display for ConditionExpression`: the pure recursive rendering fold. -/
def ConditionExpression.render : ConditionExpression → String
  | .Compare left right comperator =>
      left.val ++ " " ++ comperator.render ++ " " ++ right.val
  | .Between operand f t => operand.val ++ " BETWEEN " ++ f.val ++ " AND " ++ t.val
  | .Any operand values =>
      operand.val ++ " IN (" ++ joinStrings (", ") (values.map Operand.val) ++ ")"
  | .Function function => function.render
  | .And left right => left.render ++ " AND " ++ right.render
  | .Or left right => left.render ++ " OR " ++ right.render
  | .Not expr => "NOT " ++ expr.render
  | .Parentheses expr => "(" ++ expr.render ++ ")"

/-- `ConditionExpression::and`. -/
def ConditionExpression.and (e : ConditionExpression) (expr : ConditionExpression) :
    ConditionExpression :=
  .And e expr

/-- `ConditionExpression::or`. -/
def ConditionExpression.or (e : ConditionExpression) (expr : ConditionExpression) :
    ConditionExpression :=
  .Or e expr

/-- Free function `not`. -/
def not (condition_expression : ConditionExpression) : ConditionExpression :=
  .Not condition_expression

/-- Free function `paren`. -/
def paren (condition_expression : ConditionExpression) : ConditionExpression :=
  .Parentheses condition_expression

/-- Comparison builder `equal` from the `Condition` trait. -/
def Operand.equal (o : Operand) (operand : Operand) : ConditionExpression :=
  .Compare o operand .Eq

/-- Comparison builder `ne`. -/
def Operand.ne (o : Operand) (operand : Operand) : ConditionExpression :=
  .Compare o operand .Ne

/-- Comparison builder `lt`. -/
def Operand.lt (o : Operand) (operand : Operand) : ConditionExpression :=
  .Compare o operand .Lt

/-- Comparison builder `lte`. -/
def Operand.lte (o : Operand) (operand : Operand) : ConditionExpression :=
  .Compare o operand .Lte

/-- Comparison builder `gt`. -/
def Operand.gt (o : Operand) (operand : Operand) : ConditionExpression :=
  .Compare o operand .Gt

/-- Comparison builder `gte`. -/
def Operand.gte (o : Operand) (operand : Operand) : ConditionExpression :=
  .Compare o operand .Gte

/-- Builder `between`. -/
def Operand.between (o : Operand) (f t : Operand) : ConditionExpression :=
  .Between o f t

/-- Builder `any` (IN-list). -/
def Operand.any (o : Operand) (values : List Operand) : ConditionExpression :=
  .Any o values

end DynamoMapper.Condition

namespace DynamoMapper.Update

/-!
Embedding of src/helpers/expression/update.rs, the update-expression compiler.
-/

open DynamoMapper.Condition (Operand)

/-- `SetActionFunction`: built-in value functions for SET. -/
inductive SetActionFunction : Type where
  | ListAppend (list1 : Operand) (list2 : Operand)
  | IfNotExists (path : Operand) (value : Operand)

/-- `impl fmt::Display for SetActionFunction`. -/
def SetActionFunction.render : SetActionFunction → String
  | .ListAppend list1 list2 => "list_append (" ++ list1.val ++ ", " ++ list2.val ++ ")"
  | .IfNotExists path value => "if_not_exists (" ++ path.val ++ ", " ++ value.val ++ ")"

/-- `SetActionOperand`: a path or a built-in value function. -/
inductive SetActionOperand : Type where
  | Path (operand : Operand)
  | Function (function : SetActionFunction)

/-- `impl fmt::Display for SetActionOperand`. -/
def SetActionOperand.render : SetActionOperand → String
  | .Path operand => operand.val
  | .Function function => function.render

/-- `SetActionValue`: bare operand or binary arithmetic. -/
inductive SetActionValue : Type where
  | Operand (operand : SetActionOperand)
  | Add (left : SetActionOperand) (right : SetActionOperand)
  | Sub (left : SetActionOperand) (right : SetActionOperand)

/-- `impl fmt::Display for SetActionValue`. -/
def SetActionValue.render : SetActionValue → String
  | .Operand operand => operand.render
  | .Add left right => left.render ++ " + " ++ right.render
  | .Sub left right => left.render ++ " - " ++ right.render

/-- `SetAction`: `path = value`. -/
structure SetAction where
  path : Operand
  value : SetActionValue

/-- `impl fmt::Display for SetAction`. -/
def SetAction.render (a : SetAction) : String := a.path.val ++ " = " ++ a.value.render

/-- `RemoveAction`: a bare path. -/
structure RemoveAction where
  path : Operand

/-- `impl fmt::Display for RemoveAction`. -/
def RemoveAction.render (a : RemoveAction) : String := a.path.val

/-- `AddAction`: `path value`. -/
structure AddAction where
  path : Operand
  value : Operand

/-- `impl fmt::Display for AddAction`. -/
def AddAction.render (a : AddAction) : String := a.path.val ++ " " ++ a.value.val

/-- `DeleteAction`: `path subset`. -/
structure DeleteAction where
  path : Operand
  subset : Operand

/-- `impl fmt::Display for DeleteAction`. -/
def DeleteAction.render (a : DeleteAction) : String := a.path.val ++ " " ++ a.subset.val

/-- `UpdateExpression`: the bag of four clause lists. -/
structure UpdateExpression where
  set : List SetAction
  remove : List RemoveAction
  add : List AddAction
  delete : List DeleteAction

/-- `UpdateExpression::new` (`Default`). -/
def UpdateExpression.new : UpdateExpression := ⟨[], [], [], []⟩

/-- Free constructor `set`: a singleton SET expression. -/
def set (statement : SetAction) : UpdateExpression := ⟨[statement], [], [], []⟩

/-- Free constructor `remove`. -/
def remove (path : Operand) : UpdateExpression := ⟨[], [⟨path⟩], [], []⟩

/-- Free constructor `add`. -/
def add (path : Operand) (value : Operand) : UpdateExpression := ⟨[], [], [⟨path, value⟩], []⟩

/-- Free constructor `delete`. -/
def delete (path : Operand) (subset : Operand) : UpdateExpression := ⟨[], [], [], [⟨path, subset⟩]⟩

/-- `UpdateExpression::and`: list-wise concatenation, self first. -/
def UpdateExpression.and (e other : UpdateExpression) : UpdateExpression :=
  ⟨e.set ++ other.set, e.remove ++ other.remove, e.add ++ other.add, e.delete ++ other.delete⟩

/-- `impl fmt::Display for UpdateExpression`: non-empty segments in fixed order
SET, REMOVE, ADD, DELETE, space-joined, items comma-joined. -/
def UpdateExpression.render (e : UpdateExpression) : String :=
  let actions : List String :=
    (if e.set.isEmpty then [] else
      ["SET " ++ joinStrings (", ") (e.set.map SetAction.render)]) ++
    (if e.remove.isEmpty then [] else
      ["REMOVE " ++ joinStrings (", ") (e.remove.map RemoveAction.render)]) ++
    (if e.add.isEmpty then [] else
      ["ADD " ++ joinStrings (", ") (e.add.map AddAction.render)]) ++
    (if e.delete.isEmpty then [] else
      ["DELETE " ++ joinStrings (", ") (e.delete.map DeleteAction.render)])
  joinStrings (" ") actions

end DynamoMapper.Update

namespace DynamoMapper.Query

/-!
Embedding of src/operations/query.rs: the key-condition builder, the
placeholder merge performed in `send`, and the response decoding.  Functions
that panic in Rust (`expect("Partition key is not set")`) return `Option`,
with `none` standing for the panic.
-/

open DynamoMapper.CondExpr (Operand)

/-- Reserved name alias for the partition key. -/
def PK_EXP_NAME : String := "#PK"

/-- Reserved value alias for the partition key. -/
def PK_EXP_VALUE : String := ":PK"

/-- Reserved name alias for the sort key. -/
def SK_EXP_NAME : String := "#SK"

/-- Reserved value alias for the sort key. -/
def SK_EXP_VALUE : String := ":SK"

/-- Reserved value alias for the lower bound of a BETWEEN sort condition. -/
def BETWEEN_FROM : String := ":SK_FROM"

/-- Reserved value alias for the upper bound of a BETWEEN sort condition. -/
def BETWEEN_TO : String := ":SK_TO"

/-- `SkCondition`: the sort-key relational condition remembered by the builder. -/
inductive SkCondition : Type where
  | Eq (v : AttributeValue)
  | Lt (v : AttributeValue)
  | Lte (v : AttributeValue)
  | Gt (v : AttributeValue)
  | Gte (v : AttributeValue)
  | Between (f : AttributeValue) (t : AttributeValue)
  | BeginsWith (v : AttributeValue)

/-- `SkCondition::expression`: renders the sort-key condition through the
condition-expression helpers, over the reserved aliases. -/
def SkCondition.expression (c : SkCondition) : String :=
  let sk := Operand.new SK_EXP_NAME
  let val := Operand.new SK_EXP_VALUE
  let expr : CondExpr.Expression :=
    match c with
    | .Eq _ => sk.eq val
    | .Lt _ => sk.lt val
    | .Lte _ => sk.lte val
    | .Gt _ => sk.gt val
    | .Gte _ => sk.gte val
    | .Between _ _ => sk.between (Operand.new BETWEEN_FROM) (Operand.new BETWEEN_TO)
    | .BeginsWith _ => CondExpr.begins_with sk val
  expr.val

/-- Whether the condition is the BETWEEN shape. -/
def SkCondition.isBetween : SkCondition → Bool
  | .Between _ _ => true
  | _ => false

/-- `QueryOperation` builder state: the key fields plus the caller-supplied
filter-expression placeholder maps held by the wrapped input builder
(`None` when the corresponding setter was never called). -/
structure QueryOperation where
  pk_attribute : String
  sk_attribute : Option String
  pk : Option AttributeValue
  sk : Option SkCondition
  filter_names : Option (StrMap String)
  filter_values : Option Item

/-- `pk_eq`: stores the partition-key value produced by the key builder. -/
def QueryOperation.pk_eq (o : QueryOperation) (built : Option AttributeValue) : QueryOperation :=
  { o with pk := built }

/-- `sk_eq`. -/
def QueryOperation.sk_eq (o : QueryOperation) (built : Option AttributeValue) : QueryOperation :=
  { o with sk := built.map SkCondition.Eq }

/-- `sk_lt`. -/
def QueryOperation.sk_lt (o : QueryOperation) (built : Option AttributeValue) : QueryOperation :=
  { o with sk := built.map SkCondition.Lt }

/-- `sk_lte`. -/
def QueryOperation.sk_lte (o : QueryOperation) (built : Option AttributeValue) : QueryOperation :=
  { o with sk := built.map SkCondition.Lte }

/-- `sk_gt`. -/
def QueryOperation.sk_gt (o : QueryOperation) (built : Option AttributeValue) : QueryOperation :=
  { o with sk := built.map SkCondition.Gt }

/-- `sk_gte`. -/
def QueryOperation.sk_gte (o : QueryOperation) (built : Option AttributeValue) : QueryOperation :=
  { o with sk := built.map SkCondition.Gte }

/-- `sk_between`: active only when both bounds were built (`Option::zip`). -/
def QueryOperation.sk_between (o : QueryOperation)
    (f t : Option AttributeValue) : QueryOperation :=
  { o with sk :=
      match f, t with
      | some a, some b => some (SkCondition.Between a b)
      | _, _ => none }

/-- `sk_begins_with`: takes the attribute value directly. -/
def QueryOperation.sk_begins_with (o : QueryOperation) (value : AttributeValue) : QueryOperation :=
  { o with sk := some (SkCondition.BeginsWith value) }

/-- `filter_expression_attribute_names`. -/
def QueryOperation.filter_expression_attribute_names (o : QueryOperation)
    (names : StrMap String) : QueryOperation :=
  { o with filter_names := some names }

/-- `filter_expression_attribute_values`. -/
def QueryOperation.filter_expression_attribute_values (o : QueryOperation)
    (values : Item) : QueryOperation :=
  { o with filter_values := some values }

/-- `pk_condtion_expression` (source spelling): always `#PK = :PK`. -/
def QueryOperation.pk_condtion_expression (_o : QueryOperation) : String :=
  ((Operand.new PK_EXP_NAME).eq (Operand.new PK_EXP_VALUE)).val

/-- `sk_condition_expression`: `sk_attribute.and(sk).map(SkCondition::expression)`. -/
def QueryOperation.sk_condition_expression (o : QueryOperation) : Option String :=
  match o.sk_attribute, o.sk with
  | some _, some c => some c.expression
  | _, _ => none

/-- `key_condition_expression`. -/
def QueryOperation.key_condition_expression (o : QueryOperation) : String :=
  match o.sk_condition_expression with
  | some sk_expr => o.pk_condtion_expression ++ " AND " ++ sk_expr
  | none => o.pk_condtion_expression

/-- `key_expression_attribute_names`. -/
def QueryOperation.key_expression_attribute_names (o : QueryOperation) : StrMap String :=
  let names := StrMap.empty.insert PK_EXP_NAME o.pk_attribute
  match o.sk_attribute, o.sk with
  | some sk_attr, some _ => names.insert SK_EXP_NAME sk_attr
  | _, _ => names

/-- `key_expression_attribute_values`; `none` models the
`expect("Partition key is not set")` panic. -/
def QueryOperation.key_expression_attribute_values (o : QueryOperation) : Option Item :=
  o.pk.map fun pkv =>
    let map := AttributeMap.new.set PK_EXP_VALUE pkv
    let map :=
      if o.sk_attribute.isSome then
        match o.sk with
        | some (.Eq val) | some (.Lt val) | some (.Lte val) | some (.Gt val)
        | some (.Gte val) | some (.BeginsWith val) => map.set SK_EXP_VALUE val
        | some (.Between f t) => (map.set BETWEEN_FROM f).set BETWEEN_TO t
        | none => map
      else map
    map.into_item

/-- `expression_attribute_names`: caller filter names (or empty) extended with
the internal key-condition names. -/
def QueryOperation.expression_attribute_names (o : QueryOperation) : StrMap String :=
  (o.filter_names.getD StrMap.empty).extend o.key_expression_attribute_names

/-- `expression_attribute_values`: caller filter values (or empty) extended
with the internal key-condition values; `none` models the panic. -/
def QueryOperation.expression_attribute_values (o : QueryOperation) : Option Item :=
  o.key_expression_attribute_values.map fun kv =>
    (o.filter_values.getD StrMap.empty).extend kv

/-- Boxed error type, kept opaque. -/
def BoxError : Type := String

/-- `Error` from src/error.rs. -/
inductive Error : Type where
  | Conversion (e : BoxError)
  | Sdk (e : BoxError)

/-- The relevant fields of `aws_sdk_dynamodb` `QueryOutput`. -/
structure QueryOutput where
  items : Option (List Item)
  last_evaluated_key : Option Item

/-- `QueryOperationOutput`. -/
structure QueryOperationOutput (T : Type) where
  items : List T
  last_evaluated_key : Option Item

/-- The conversion loop inside `TryFrom<QueryOutput> for QueryOperationOutput`:
items converted in order, the first failure aborts with `Error::Conversion`. -/
def convertItems {T : Type} (tryFrom : Item → Except BoxError T) :
    List Item → Except Error (List T)
  | [] => .ok []
  | i :: rest =>
    match tryFrom i with
    | .error e => .error (.Conversion e)
    | .ok t =>
      match convertItems tryFrom rest with
      | .error e => .error e
      | .ok ts => .ok (t :: ts)

/-- `TryFrom<QueryOutput> for QueryOperationOutput<T>`. -/
def queryOperationOutputTryFrom {T : Type} (tryFrom : Item → Except BoxError T)
    (output : QueryOutput) : Except Error (QueryOperationOutput T) :=
  match convertItems tryFrom (output.items.getD []) with
  | .error e => .error e
  | .ok ts => .ok ⟨ts, output.last_evaluated_key⟩

end DynamoMapper.Query

namespace DynamoMapper

/-- `GetItemOperation` key state (src/operations/get_item.rs). -/
structure GetItemOperation where
  pk_attribute : String
  sk_attribute : Option String
  pk : Option AttributeValue
  sk : Option AttributeValue

/-- `GetItemOperation::keys`; `none` models the
`panic!("Partition key is not set")`, and the sort key is inserted only when
both the schema attribute and the component are present. -/
def GetItemOperation.keys (o : GetItemOperation) : Option Item :=
  o.pk.map fun pkv =>
    let item := StrMap.empty.insert o.pk_attribute pkv
    match o.sk_attribute, o.sk with
    | some sk_attr, some skv => item.insert sk_attr skv
    | _, _ => item

/-- `UpdateItemOperation` key state (src/operations/update_item.rs). -/
structure UpdateItemOperation where
  pk_attribute : String
  sk_attribute : Option String
  pk : Option AttributeValue
  sk : Option AttributeValue

/-- `UpdateItemOperation::keys`: same logic as the GetItem one. -/
def UpdateItemOperation.keys (o : UpdateItemOperation) : Option Item :=
  o.pk.map fun pkv =>
    let item := StrMap.empty.insert o.pk_attribute pkv
    match o.sk_attribute, o.sk with
    | some sk_attr, some skv => item.insert sk_attr skv
    | _, _ => item

/-- `DeleteItemOperation` key state (src/operations/delete_item.rs):
`set_key` stores a fully assembled key item, and no key means `None`. -/
structure DeleteItemOperation where
  key : Option Item

/-- `DeleteItemOperation::set_key` (the key item built by the `Key` impl). -/
def DeleteItemOperation.set_key (o : DeleteItemOperation) (k : Item) : DeleteItemOperation :=
  { o with key := some k }

/-- The key field that `DeleteItemOperation::send` passes to the request:
`set_key(self.key)` performs no check, so assembly always succeeds (the outer
`Option` is the panic-capture monad used across this development and is always
`some` here). -/
def DeleteItemOperation.send_key_assembly (o : DeleteItemOperation) : Option (Option Item) :=
  some o.key

/-- Identifier characters of placeholder aliases and expression words, used to
read off which tokens occur in a rendered expression. -/
def isIdentChar (c : Char) : Bool :=
  c.isAlphanum || c == '_' || c == '#' || c == ':'

/-- Splits a character list into maximal runs of identifier characters. -/
def tokensAux : List Char → List Char → List String
  | [], acc => if acc.isEmpty then [] else [String.mk acc.reverse]
  | c :: cs, acc =>
    if isIdentChar c then tokensAux cs (c :: acc)
    else if acc.isEmpty then tokensAux cs []
    else String.mk acc.reverse :: tokensAux cs []

/-- The identifier tokens occurring in a rendered expression, in order; a
placeholder alias occurs in an expression exactly when it is one of its
tokens. -/
def tokens (s : String) : List String := tokensAux s.data []

end DynamoMapper

namespace DynamoMapper

/-- Witness converter: reads a record's name from an item, failing when absent. -/
def personName (m : Item) : Except Query.BoxError String :=
  match m.get ("name") with
  | some (.S s) => .ok s
  | _ => .error "missing name attribute"

/-- Witness item that `personName` converts successfully. -/
def itemAlice : Item := StrMap.empty.insert ("name") (.S "alice")

/-- Witness item that `personName` rejects. -/
def itemBlank : Item := StrMap.empty

theorem strmap_get_empty {α : Type} (k : String) : (StrMap.empty : StrMap α).get k = none := rfl

theorem strmap_get_insert_self {α : Type} (m : StrMap α) (k : String) (v : α) :
    (m.insert k v).get k = some v := by
  simp [StrMap.insert, StrMap.get]

theorem strmap_get_insert_of_ne {α : Type} (m : StrMap α) (k q : String) (v : α)
    (h : q ≠ k) : (m.insert k v).get q = m.get q := by
  simp [StrMap.insert, StrMap.get, h]

theorem strmap_get_extend_of_some {α : Type} (m n : StrMap α) (k : String) (v : α)
    (h : n.get k = some v) : (m.extend n).get k = some v := by
  simp only [StrMap.extend, StrMap.get] at *
  rw [h]

theorem strmap_get_extend_of_none {α : Type} (m n : StrMap α) (k : String)
    (h : n.get k = none) : (m.extend n).get k = m.get k := by
  simp only [StrMap.extend, StrMap.get] at *
  rw [h]

/-- C9: the comparator rendering table is exhaustive and exact (Eq is `=`, Ne
is `<>`, Lt is `<`, Lte is `<=`, Gt is `>`, Gte is `>=`), and a Compare node
renders as the left operand, a space, the comparator text, a space, and the
right operand. -/
theorem comperator_rendering_table :
    Condition.Comperator.render .Eq = "="
  ∧ Condition.Comperator.render .Ne = "<>"
  ∧ Condition.Comperator.render .Lt = "<"
  ∧ Condition.Comperator.render .Lte = "<="
  ∧ Condition.Comperator.render .Gt = ">"
  ∧ Condition.Comperator.render .Gte = ">="
  ∧ ∀ (l r : Condition.Operand) (c : Condition.Comperator),
      (Condition.ConditionExpression.Compare l r c).render =
        l.val ++ " " ++ c.render ++ " " ++ r.val :=
  ⟨rfl, rfl, rfl, rfl, rfl, rfl, fun _ _ _ => rfl⟩

/-- C6: condition-expression rendering is a pure homomorphism into text with
no auto-parenthesization: `and`/`or` join the operand texts with a bare
connective, `not` prepends `NOT `, `paren` wraps in parentheses, and
rendering the same expression twice yields identical text. -/
theorem condition_render_homomorphism (e1 e2 : Condition.ConditionExpression) :
    (e1.and e2).render = e1.render ++ " AND " ++ e2.render
  ∧ (e1.or e2).render = e1.render ++ " OR " ++ e2.render
  ∧ (Condition.not e1).render = "NOT " ++ e1.render
  ∧ (Condition.paren e1).render = "(" ++ e1.render ++ ")"
  ∧ e1.render = e1.render :=
  ⟨rfl, rfl, rfl, rfl, rfl⟩

/-- C5: update-expression merge via `and` is associative and order-preserving
(each clause list concatenates with the left part first), an expression whose
four clause lists are all empty renders to the empty string, non-empty
segments render in the fixed order SET, REMOVE, ADD, DELETE joined by single
spaces with comma-joined items, and an absent clause kind contributes no
keyword segment. -/
theorem update_and_assoc_order_preserving (a b c : Update.UpdateExpression) :
    (a.and b).and c = a.and (b.and c)
  ∧ ((a.and b).and c).render = (a.and (b.and c)).render
  ∧ (a.and b).set = a.set ++ b.set
  ∧ (a.and b).remove = a.remove ++ b.remove
  ∧ (a.and b).add = a.add ++ b.add
  ∧ (a.and b).delete = a.delete ++ b.delete
  ∧ Update.UpdateExpression.new.render = ""
  ∧ (∀ (s : Update.SetAction) (ss : List Update.SetAction)
       (r : Update.RemoveAction) (rs : List Update.RemoveAction)
       (ad : Update.AddAction) (ads : List Update.AddAction)
       (d : Update.DeleteAction) (ds : List Update.DeleteAction),
      (Update.UpdateExpression.mk (s :: ss) (r :: rs) (ad :: ads) (d :: ds)).render =
        "SET " ++ joinStrings (", ") ((s :: ss).map Update.SetAction.render) ++ " " ++
          ("REMOVE " ++ joinStrings (", ") ((r :: rs).map Update.RemoveAction.render) ++ " " ++
            ("ADD " ++ joinStrings (", ") ((ad :: ads).map Update.AddAction.render) ++ " " ++
              ("DELETE " ++ joinStrings (", ") ((d :: ds).map Update.DeleteAction.render)))))
  ∧ (∀ (r : Update.RemoveAction) (rs : List Update.RemoveAction)
       (ad : Update.AddAction) (ads : List Update.AddAction)
       (d : Update.DeleteAction) (ds : List Update.DeleteAction),
      (Update.UpdateExpression.mk [] (r :: rs) (ad :: ads) (d :: ds)).render =
        "REMOVE " ++ joinStrings (", ") ((r :: rs).map Update.RemoveAction.render) ++ " " ++
          ("ADD " ++ joinStrings (", ") ((ad :: ads).map Update.AddAction.render) ++ " " ++
            ("DELETE " ++ joinStrings (", ") ((d :: ds).map Update.DeleteAction.render)))) := by
  have hassoc : (a.and b).and c = a.and (b.and c) := by
    cases a; cases b; cases c
    simp [Update.UpdateExpression.and, List.append_assoc]
  refine ⟨hassoc, by rw [hassoc], rfl, rfl, rfl, rfl, rfl, ?_, ?_⟩
  · intro s ss r rs ad ads d ds
    simp [Update.UpdateExpression.render, joinStrings]
  · intro r rs ad ads d ds
    simp [Update.UpdateExpression.render, joinStrings]

end DynamoMapper

namespace DynamoMapper

theorem query_key_names_pk (o : Query.QueryOperation) :
    o.key_expression_attribute_names.get ("#PK") = some o.pk_attribute := by
  obtain ⟨pa, ska, pk, sk, fn, fv⟩ := o
  cases ska <;> cases sk <;> rfl

theorem query_key_values_pk (o : Query.QueryOperation) (pv : AttributeValue)
    (h : o.pk = some pv) :
    ∃ km, o.key_expression_attribute_values = some km ∧ km.get (":PK") = some pv := by
  unfold Query.QueryOperation.key_expression_attribute_values
  rw [h]
  refine ⟨_, rfl, ?_⟩
  rcases hsa : o.sk_attribute with _ | a <;>
    rcases hsk : o.sk with _ | c
  · rfl
  · rfl
  · rfl
  · cases c <;> rfl

/-- C1: the expression-attribute-name and expression-attribute-value maps
assembled at `send` extend the caller-supplied filter maps (empty when unset)
with the internally computed key-condition pairs: every internal entry wins on
collision (in particular the merged maps hold the internal `#PK` name and
`:PK` value), and every caller entry whose key is not an internal one is
preserved unchanged. -/
theorem query_send_placeholder_merge (o : Query.QueryOperation) (pv : AttributeValue)
    (h : o.pk = some pv) :
    (∀ k v, o.key_expression_attribute_names.get k = some v →
        o.expression_attribute_names.get k = some v)
  ∧ (∀ k, o.key_expression_attribute_names.get k = none →
        o.expression_attribute_names.get k = (o.filter_names.getD StrMap.empty).get k)
  ∧ o.expression_attribute_names.get ("#PK") = some o.pk_attribute
  ∧ ∃ m, o.expression_attribute_values = some m
      ∧ m.get (":PK") = some pv
      ∧ ∀ km, o.key_expression_attribute_values = some km →
          (∀ k v, km.get k = some v → m.get k = some v)
          ∧ (∀ k, km.get k = none →
              m.get k = (o.filter_values.getD StrMap.empty).get k) := by
  obtain ⟨km, hkm, hpk⟩ := query_key_values_pk o pv h
  refine ⟨?_, ?_, ?_, ?_⟩
  · intro k v hk
    unfold Query.QueryOperation.expression_attribute_names
    exact strmap_get_extend_of_some _ _ _ _ hk
  · intro k hk
    unfold Query.QueryOperation.expression_attribute_names
    exact strmap_get_extend_of_none _ _ _ hk
  · unfold Query.QueryOperation.expression_attribute_names
    exact strmap_get_extend_of_some _ _ _ _ (query_key_names_pk o)
  · refine ⟨(o.filter_values.getD StrMap.empty).extend km, ?_, ?_, ?_⟩
    · unfold Query.QueryOperation.expression_attribute_values
      rw [hkm]
      rfl
    · exact strmap_get_extend_of_some _ _ _ _ hpk
    · intro km2 hkm2
      rw [hkm] at hkm2
      obtain rfl : km = km2 := Option.some.inj hkm2
      exact ⟨fun k v hk => strmap_get_extend_of_some _ _ _ _ hk,
             fun k hk => strmap_get_extend_of_none _ _ _ hk⟩

/-- C1 witness: a builder whose caller filter maps bind the reserved `#PK` /
`:PK` aliases; the merged maps hold the internally computed values and keep
the caller's non-colliding `#v` entry. -/
theorem query_send_placeholder_merge_witness :
    (Query.QueryOperation.mk ("pk attr") none (some (AttributeValue.S "x")) none
        (some ((StrMap.empty.insert ("#PK") ("caller")).insert ("#v") ("foo")))
        (some (StrMap.empty.insert (":PK") (AttributeValue.N "9")))).pk
      = some (AttributeValue.S "x")
  ∧ (Query.QueryOperation.mk ("pk attr") none (some (AttributeValue.S "x")) none
        (some ((StrMap.empty.insert ("#PK") ("caller")).insert ("#v") ("foo")))
        (some (StrMap.empty.insert (":PK") (AttributeValue.N "9")))).expression_attribute_names.get ("#PK")
      = some ("pk attr") :=
  ⟨rfl,
   (query_send_placeholder_merge
      (Query.QueryOperation.mk ("pk attr") none (some (AttributeValue.S "x")) none
        (some ((StrMap.empty.insert ("#PK") ("caller")).insert ("#v") ("foo")))
        (some (StrMap.empty.insert (":PK") (AttributeValue.N "9"))))
      (AttributeValue.S "x") rfl).2.2.1⟩

/-- C2: on a schema with no sort-key attribute and the partition key set, the
key-condition expression is exactly `#PK = :PK` and the key-condition value
bindings hold exactly the single entry `:PK`, whatever sort condition (if
any) was set. -/
theorem query_partition_only_schema (pa : String) (pv : AttributeValue)
    (sk : Option Query.SkCondition) (fn : Option (StrMap String)) (fv : Option Item) :
    (Query.QueryOperation.mk pa none (some pv) sk fn fv).key_condition_expression
      = "#PK = :PK"
  ∧ ∃ m, (Query.QueryOperation.mk pa none (some pv) sk fn fv).key_expression_attribute_values
        = some m
      ∧ m.get (":PK") = some pv
      ∧ ∀ k, k ≠ (":PK") → m.get k = none := by
  refine ⟨by cases sk <;> rfl, ⟨_, rfl, rfl, ?_⟩⟩
  intro k hk
  simp [AttributeMap.new, AttributeMap.set, AttributeMap.into_item, StrMap.insert,
    StrMap.empty, StrMap.get, Query.PK_EXP_VALUE, hk]

end DynamoMapper

namespace DynamoMapper

/-- C3: on a schema with a sort-key attribute and the partition key set, each
active sort condition renders the documented key-condition text and bindings:
`sk_eq` gives `#PK = :PK AND #SK = :SK` with `:PK` and `:SK` bound;
`sk_between` gives `#PK = :PK AND #SK BETWEEN :SK_FROM AND :SK_TO` with the
two bound and `:SK` absent; the other comparators and `begins_with` produce
the analogous text. -/
theorem query_composite_key_condition (pa attr : String) (pv : AttributeValue)
    (fn : Option (StrMap String)) (fv : Option Item) :
    (∀ v,
      (Query.QueryOperation.mk pa (some attr) (some pv) (some (.Eq v)) fn fv).key_condition_expression
        = "#PK = :PK AND #SK = :SK"
      ∧ ∃ m, (Query.QueryOperation.mk pa (some attr) (some pv) (some (.Eq v)) fn fv).key_expression_attribute_values
            = some m
          ∧ m.get (":PK") = some pv ∧ m.get (":SK") = some v)
  ∧ (∀ f t,
      (Query.QueryOperation.mk pa (some attr) (some pv) (some (.Between f t)) fn fv).key_condition_expression
        = "#PK = :PK AND #SK BETWEEN :SK_FROM AND :SK_TO"
      ∧ ∃ m, (Query.QueryOperation.mk pa (some attr) (some pv) (some (.Between f t)) fn fv).key_expression_attribute_values
            = some m
          ∧ m.get (":PK") = some pv ∧ m.get (":SK_FROM") = some f
          ∧ m.get (":SK_TO") = some t ∧ m.get (":SK") = none)
  ∧ (∀ v,
      (Query.QueryOperation.mk pa (some attr) (some pv) (some (.Lt v)) fn fv).key_condition_expression
        = "#PK = :PK AND #SK < :SK"
      ∧ ∃ m, (Query.QueryOperation.mk pa (some attr) (some pv) (some (.Lt v)) fn fv).key_expression_attribute_values
            = some m ∧ m.get (":SK") = some v)
  ∧ (∀ v,
      (Query.QueryOperation.mk pa (some attr) (some pv) (some (.Lte v)) fn fv).key_condition_expression
        = "#PK = :PK AND #SK <= :SK"
      ∧ ∃ m, (Query.QueryOperation.mk pa (some attr) (some pv) (some (.Lte v)) fn fv).key_expression_attribute_values
            = some m ∧ m.get (":SK") = some v)
  ∧ (∀ v,
      (Query.QueryOperation.mk pa (some attr) (some pv) (some (.Gt v)) fn fv).key_condition_expression
        = "#PK = :PK AND #SK > :SK"
      ∧ ∃ m, (Query.QueryOperation.mk pa (some attr) (some pv) (some (.Gt v)) fn fv).key_expression_attribute_values
            = some m ∧ m.get (":SK") = some v)
  ∧ (∀ v,
      (Query.QueryOperation.mk pa (some attr) (some pv) (some (.Gte v)) fn fv).key_condition_expression
        = "#PK = :PK AND #SK >= :SK"
      ∧ ∃ m, (Query.QueryOperation.mk pa (some attr) (some pv) (some (.Gte v)) fn fv).key_expression_attribute_values
            = some m ∧ m.get (":SK") = some v)
  ∧ (∀ v,
      (Query.QueryOperation.mk pa (some attr) (some pv) (some (.BeginsWith v)) fn fv).key_condition_expression
        = "#PK = :PK AND begins_with (#SK, :SK)"
      ∧ ∃ m, (Query.QueryOperation.mk pa (some attr) (some pv) (some (.BeginsWith v)) fn fv).key_expression_attribute_values
            = some m ∧ m.get (":SK") = some v) :=
  ⟨fun _ => ⟨rfl, ⟨_, rfl, rfl, rfl⟩⟩,
   fun _ _ => ⟨rfl, ⟨_, rfl, rfl, rfl, rfl, rfl⟩⟩,
   fun _ => ⟨rfl, ⟨_, rfl, rfl⟩⟩,
   fun _ => ⟨rfl, ⟨_, rfl, rfl⟩⟩,
   fun _ => ⟨rfl, ⟨_, rfl, rfl⟩⟩,
   fun _ => ⟨rfl, ⟨_, rfl, rfl⟩⟩,
   fun _ => ⟨rfl, ⟨_, rfl, rfl⟩⟩⟩

end DynamoMapper


namespace DynamoMapper

/-- C4 counterexample: a GetItem builder on a composite-key schema (sort
attribute `sk` declared) with the partition key set and the sort-key
component absent assembles its key map successfully, holding only the
partition key, instead of panicking or failing. -/
theorem get_item_keys_accepts_missing_sort_key :
    ((GetItemOperation.mk ("pk") (some ("sk")) (some (AttributeValue.S "100")) none).keys).isSome
      = true
  ∧ (((GetItemOperation.mk ("pk") (some ("sk")) (some (AttributeValue.S "100")) none).keys).getD
        StrMap.empty).get ("pk") = some (AttributeValue.S "100")
  ∧ (((GetItemOperation.mk ("pk") (some ("sk")) (some (AttributeValue.S "100")) none).keys).getD
        StrMap.empty).get ("sk") = none :=
  ⟨rfl, rfl, rfl⟩

/-- C4 amended: Get/Update key assembly panics exactly when the partition key
is absent; when the schema declares a sort key but the sort-key component is
absent, the key map is silently assembled with only the partition key, and
when both components are present both attributes are included. -/
theorem get_update_keys_assembly :
    (∀ (pa : String) (ska : Option String) (sk : Option AttributeValue),
       (GetItemOperation.mk pa ska none sk).keys = none)
  ∧ (∀ (pa : String) (ska : Option String) (sk : Option AttributeValue) (pv : AttributeValue),
       ∃ m, (GetItemOperation.mk pa ska (some pv) sk).keys = some m
         ∧ ((ska = none ∨ sk = none) →
             m.get pa = some pv ∧ ∀ k, k ≠ pa → m.get k = none)
         ∧ (∀ sa sv, ska = some sa → sk = some sv →
             m.get sa = some sv ∧ (sa ≠ pa → m.get pa = some pv)))
  ∧ (∀ (pa : String) (ska : Option String) (sk : Option AttributeValue),
       (UpdateItemOperation.mk pa ska none sk).keys = none)
  ∧ (∀ (pa : String) (ska : Option String) (sk : Option AttributeValue) (pv : AttributeValue),
       ∃ m, (UpdateItemOperation.mk pa ska (some pv) sk).keys = some m
         ∧ ((ska = none ∨ sk = none) →
             m.get pa = some pv ∧ ∀ k, k ≠ pa → m.get k = none)
         ∧ (∀ sa sv, ska = some sa → sk = some sv →
             m.get sa = some sv ∧ (sa ≠ pa → m.get pa = some pv))) := by
  refine ⟨fun pa ska sk => rfl, ?_, fun pa ska sk => rfl, ?_⟩ <;>
  · intro pa ska sk pv
    rcases ska with _ | a <;> rcases sk with _ | sv
    · refine ⟨_, rfl, fun _ => ⟨?_, fun k hk => ?_⟩,
        fun sa sv h1 _ => Option.noConfusion h1⟩
      · simp [StrMap.insert, StrMap.get, StrMap.empty]
      · simp [StrMap.insert, StrMap.get, StrMap.empty, hk]
    · refine ⟨_, rfl, fun _ => ⟨?_, fun k hk => ?_⟩,
        fun sa sv h1 _ => Option.noConfusion h1⟩
      · simp [StrMap.insert, StrMap.get, StrMap.empty]
      · simp [StrMap.insert, StrMap.get, StrMap.empty, hk]
    · refine ⟨_, rfl, fun _ => ⟨?_, fun k hk => ?_⟩,
        fun sa sv _ h2 => Option.noConfusion h2⟩
      · simp [StrMap.insert, StrMap.get, StrMap.empty]
      · simp [StrMap.insert, StrMap.get, StrMap.empty, hk]
    · refine ⟨_, rfl, fun hc => ?_, fun sa sv2 h1 h2 => ?_⟩
      · rcases hc with h | h <;> exact Option.noConfusion h
      · obtain rfl : a = sa := Option.some.inj h1
        obtain rfl : sv = sv2 := Option.some.inj h2
        refine ⟨?_, fun hne => ?_⟩
        · simp [GetItemOperation.keys, UpdateItemOperation.keys, StrMap.get, StrMap.insert]
        · simp [GetItemOperation.keys, UpdateItemOperation.keys, StrMap.get, StrMap.insert,
            Ne.symm hne]

/-- C4 amended witness: the composite-schema GetItem builder with only the
partition key set assembles a key map binding `pk`. -/
theorem get_update_keys_assembly_witness :
    ∃ m, (GetItemOperation.mk ("pk") (some ("sk")) (some (AttributeValue.S "1")) none).keys
        = some m
      ∧ m.get ("pk") = some (AttributeValue.S "1") := by
  obtain ⟨m, hm, hcase, _⟩ :=
    get_update_keys_assembly.2.1 ("pk") (some ("sk")) none (AttributeValue.S "1")
  exact ⟨m, hm, (hcase (Or.inr rfl)).1⟩

/-- C7 counterexample: a DeleteItem builder with no key set reaches dispatch
without any panic; its request simply carries an absent key, so the claim
that every operation panics on a missing partition key fails here. -/
theorem delete_item_send_without_key_dispatches :
    (DeleteItemOperation.mk none).send_key_assembly = some none := rfl

/-- C7 amended: for the Query, GetItem and UpdateItem operations, dispatching
with no partition key set panics during key assembly before any request is
built; the DeleteItem operation performs no such check and passes its
(possibly absent) key straight into the request. -/
theorem send_without_partition_key_faults :
    (∀ (pa : String) (ska : Option String) (sk : Option Query.SkCondition)
       (fn : Option (StrMap String)) (fv : Option Item),
       (Query.QueryOperation.mk pa ska none sk fn fv).key_expression_attribute_values = none
       ∧ (Query.QueryOperation.mk pa ska none sk fn fv).expression_attribute_values = none)
  ∧ (∀ (pa : String) (ska : Option String) (sk : Option AttributeValue),
       (GetItemOperation.mk pa ska none sk).keys = none)
  ∧ (∀ (pa : String) (ska : Option String) (sk : Option AttributeValue),
       (UpdateItemOperation.mk pa ska none sk).keys = none)
  ∧ (∀ d : DeleteItemOperation, d.send_key_assembly = some d.key) :=
  ⟨fun _ _ _ _ _ => ⟨rfl, rfl⟩, fun _ _ _ => rfl, fun _ _ _ => rfl, fun _ => rfl⟩

theorem convert_items_first_error {T : Type} (tryFrom : Item → Except Query.BoxError T) :
    ∀ (pre : List Item) (i : Item) (e : Query.BoxError) (post : List Item),
      (∀ j ∈ pre, ∃ t, tryFrom j = .ok t) → tryFrom i = .error e →
      Query.convertItems tryFrom (pre ++ i :: post) = .error (.Conversion e) := by
  intro pre
  induction pre with
  | nil =>
    intro i e post _ hi
    simp [Query.convertItems, hi]
  | cons j rest ih =>
    intro i e post hall hi
    obtain ⟨t, ht⟩ := hall j (by simp)
    have hrest := ih i e post (fun x hx => hall x (List.mem_cons_of_mem _ hx)) hi
    simp [Query.convertItems, ht, hrest]

theorem convert_items_all_ok {T : Type} (tryFrom : Item → Except Query.BoxError T) :
    ∀ (items : List Item), (∀ j ∈ items, ∃ t, tryFrom j = .ok t) →
      ∃ ts, Query.convertItems tryFrom items = .ok ts
        ∧ List.Forall₂ (fun j t => tryFrom j = .ok t) items ts := by
  intro items
  induction items with
  | nil => exact fun _ => ⟨[], rfl, List.Forall₂.nil⟩
  | cons j rest ih =>
    intro hall
    obtain ⟨t, ht⟩ := hall j (by simp)
    obtain ⟨ts, hts, hf⟩ := ih (fun x hx => hall x (List.mem_cons_of_mem _ hx))
    exact ⟨t :: ts, by simp [Query.convertItems, ht, hts], List.Forall₂.cons ht hf⟩

/-- C8: decoding a Query response converts the returned items in order; if
some item fails to convert, the whole response is rejected with a Conversion
error wrapping the first failing item's cause and no partial list is
returned, while on full success every item appears converted in the store's
returned order alongside the optional last-evaluated key. -/
theorem query_decode_all_or_nothing {T : Type} (tryFrom : Item → Except Query.BoxError T) :
    (∀ (pre : List Item) (i : Item) (e : Query.BoxError) (post : List Item)
       (lek : Option Item),
      (∀ j ∈ pre, ∃ t, tryFrom j = .ok t) → tryFrom i = .error e →
      Query.queryOperationOutputTryFrom tryFrom ⟨some (pre ++ i :: post), lek⟩
        = .error (.Conversion e))
  ∧ (∀ (items : List Item) (lek : Option Item),
      (∀ j ∈ items, ∃ t, tryFrom j = .ok t) →
      ∃ ts, Query.queryOperationOutputTryFrom tryFrom ⟨some items, lek⟩
          = .ok ⟨ts, lek⟩
        ∧ List.Forall₂ (fun j t => tryFrom j = .ok t) items ts) := by
  constructor
  · intro pre i e post lek hall hi
    have h := convert_items_first_error tryFrom pre i e post hall hi
    simp [Query.queryOperationOutputTryFrom, h]
  · intro items lek hall
    obtain ⟨ts, hts, hf⟩ := convert_items_all_ok tryFrom items hall
    exact ⟨ts, by simp [Query.queryOperationOutputTryFrom, hts], hf⟩

/-- C8 witness: a response whose second item cannot be converted is rejected
whole with the Conversion error of that item. -/
theorem query_decode_all_or_nothing_witness :
    Query.queryOperationOutputTryFrom personName ⟨some [itemAlice, itemBlank], none⟩
      = .error (.Conversion ("missing name attribute")) :=
  (query_decode_all_or_nothing personName).1 [itemAlice] itemBlank
    ("missing name attribute") [] none
    (by
      intro j hj
      rw [List.mem_singleton] at hj
      subst hj
      exact ⟨("alice"), rfl⟩)
    rfl

/-- C10: for a Query builder with the partition key set, the internally
generated key-condition bindings coincide exactly with the reserved
placeholders occurring (as tokens) in the rendered key-condition text:
`#PK` and `:PK` are always bound and present, `#SK` is bound iff it occurs
iff a sort-key attribute is declared and a sort condition is active, `:SK`
is bound iff it occurs iff the active condition is a non-between sort
condition, and `:SK_FROM`/`:SK_TO` are bound iff they occur iff the active
condition is a between condition. -/
theorem query_key_bindings_match_expression (o : Query.QueryOperation)
    (pv : AttributeValue) (h : o.pk = some pv) :
    ∃ values, o.key_expression_attribute_values = some values
      ∧ o.key_expression_attribute_names.get ("#PK") = some o.pk_attribute
      ∧ values.get (":PK") = some pv
      ∧ ("#PK") ∈ tokens o.key_condition_expression
      ∧ (":PK") ∈ tokens o.key_condition_expression
      ∧ ((o.key_expression_attribute_names.get ("#SK")).isSome = true
          ↔ ("#SK") ∈ tokens o.key_condition_expression)
      ∧ ((values.get (":SK")).isSome = true
          ↔ (":SK") ∈ tokens o.key_condition_expression)
      ∧ ((values.get (":SK_FROM")).isSome = true
          ↔ (":SK_FROM") ∈ tokens o.key_condition_expression)
      ∧ ((values.get (":SK_TO")).isSome = true
          ↔ (":SK_TO") ∈ tokens o.key_condition_expression)
      ∧ ((o.key_expression_attribute_names.get ("#SK")).isSome = true
          ↔ o.sk_attribute.isSome = true ∧ o.sk.isSome = true)
      ∧ ((values.get (":SK")).isSome = true
          ↔ o.sk_attribute.isSome = true ∧ ∃ c, o.sk = some c ∧ c.isBetween = false)
      ∧ ((values.get (":SK_FROM")).isSome = true
          ↔ o.sk_attribute.isSome = true ∧ ∃ c, o.sk = some c ∧ c.isBetween = true)
      ∧ ((values.get (":SK_TO")).isSome = true
          ↔ o.sk_attribute.isSome = true ∧ ∃ c, o.sk = some c ∧ c.isBetween = true) := by
  obtain ⟨pa, ska, pk, sk, fn, fv⟩ := o
  cases pk with
  | none => exact Option.noConfusion h
  | some w =>
  obtain rfl : w = pv := Option.some.inj h
  rcases ska with _ | a
  · rcases sk with _ | c
    · exact ⟨_,
          rfl,
          rfl,
          rfl,
          (by decide : ("#PK") ∈ tokens ("#PK = :PK")),
          (by decide : (":PK") ∈ tokens ("#PK = :PK")),
          iff_of_false (fun hh => nomatch hh) (by decide : ("#SK") ∈ tokens ("#PK = :PK") → False),
          iff_of_false (fun hh => nomatch hh) (by decide : (":SK") ∈ tokens ("#PK = :PK") → False),
          iff_of_false (fun hh => nomatch hh) (by decide : (":SK_FROM") ∈ tokens ("#PK = :PK") → False),
          iff_of_false (fun hh => nomatch hh) (by decide : (":SK_TO") ∈ tokens ("#PK = :PK") → False),
          iff_of_false (fun hh => nomatch hh) (fun hhh => nomatch hhh.1),
          iff_of_false (fun hh => nomatch hh) (fun hhh => nomatch hhh.1),
          iff_of_false (fun hh => nomatch hh) (fun hhh => nomatch hhh.1),
          iff_of_false (fun hh => nomatch hh) (fun hhh => nomatch hhh.1)⟩
    · exact ⟨_,
          rfl,
          rfl,
          rfl,
          (by decide : ("#PK") ∈ tokens ("#PK = :PK")),
          (by decide : (":PK") ∈ tokens ("#PK = :PK")),
          iff_of_false (fun hh => nomatch hh) (by decide : ("#SK") ∈ tokens ("#PK = :PK") → False),
          iff_of_false (fun hh => nomatch hh) (by decide : (":SK") ∈ tokens ("#PK = :PK") → False),
          iff_of_false (fun hh => nomatch hh) (by decide : (":SK_FROM") ∈ tokens ("#PK = :PK") → False),
          iff_of_false (fun hh => nomatch hh) (by decide : (":SK_TO") ∈ tokens ("#PK = :PK") → False),
          iff_of_false (fun hh => nomatch hh) (fun hhh => nomatch hhh.1),
          iff_of_false (fun hh => nomatch hh) (fun hhh => nomatch hhh.1),
          iff_of_false (fun hh => nomatch hh) (fun hhh => nomatch hhh.1),
          iff_of_false (fun hh => nomatch hh) (fun hhh => nomatch hhh.1)⟩
  · rcases sk with _ | c
    · exact ⟨_,
          rfl,
          rfl,
          rfl,
          (by decide : ("#PK") ∈ tokens ("#PK = :PK")),
          (by decide : (":PK") ∈ tokens ("#PK = :PK")),
          iff_of_false (fun hh => nomatch hh) (by decide : ("#SK") ∈ tokens ("#PK = :PK") → False),
          iff_of_false (fun hh => nomatch hh) (by decide : (":SK") ∈ tokens ("#PK = :PK") → False),
          iff_of_false (fun hh => nomatch hh) (by decide : (":SK_FROM") ∈ tokens ("#PK = :PK") → False),
          iff_of_false (fun hh => nomatch hh) (by decide : (":SK_TO") ∈ tokens ("#PK = :PK") → False),
          iff_of_false (fun hh => nomatch hh) (fun hhh => nomatch hhh.2),
          iff_of_false (fun hh => nomatch hh) (fun hhh => by obtain ⟨_, c2, hc, hb⟩ := hhh; exact Option.noConfusion hc),
          iff_of_false (fun hh => nomatch hh) (fun hhh => by obtain ⟨_, c2, hc, hb⟩ := hhh; exact Option.noConfusion hc),
          iff_of_false (fun hh => nomatch hh) (fun hhh => by obtain ⟨_, c2, hc, hb⟩ := hhh; exact Option.noConfusion hc)⟩
    · cases c with
      | Eq v =>
        exact ⟨_,
          rfl,
          rfl,
          rfl,
          (by decide : ("#PK") ∈ tokens ("#PK = :PK AND #SK = :SK")),
          (by decide : (":PK") ∈ tokens ("#PK = :PK AND #SK = :SK")),
          iff_of_true rfl (by decide : ("#SK") ∈ tokens ("#PK = :PK AND #SK = :SK")),
          iff_of_true rfl (by decide : (":SK") ∈ tokens ("#PK = :PK AND #SK = :SK")),
          iff_of_false (fun hh => nomatch hh) (by decide : (":SK_FROM") ∈ tokens ("#PK = :PK AND #SK = :SK") → False),
          iff_of_false (fun hh => nomatch hh) (by decide : (":SK_TO") ∈ tokens ("#PK = :PK AND #SK = :SK") → False),
          iff_of_true rfl ⟨rfl, rfl⟩,
          iff_of_true rfl ⟨rfl, _, rfl, rfl⟩,
          iff_of_false (fun hh => nomatch hh) (fun hhh => by obtain ⟨_, c2, hc, hb⟩ := hhh; cases Option.some.inj hc; exact nomatch hb),
          iff_of_false (fun hh => nomatch hh) (fun hhh => by obtain ⟨_, c2, hc, hb⟩ := hhh; cases Option.some.inj hc; exact nomatch hb)⟩
      | Lt v =>
        exact ⟨_,
          rfl,
          rfl,
          rfl,
          (by decide : ("#PK") ∈ tokens ("#PK = :PK AND #SK < :SK")),
          (by decide : (":PK") ∈ tokens ("#PK = :PK AND #SK < :SK")),
          iff_of_true rfl (by decide : ("#SK") ∈ tokens ("#PK = :PK AND #SK < :SK")),
          iff_of_true rfl (by decide : (":SK") ∈ tokens ("#PK = :PK AND #SK < :SK")),
          iff_of_false (fun hh => nomatch hh) (by decide : (":SK_FROM") ∈ tokens ("#PK = :PK AND #SK < :SK") → False),
          iff_of_false (fun hh => nomatch hh) (by decide : (":SK_TO") ∈ tokens ("#PK = :PK AND #SK < :SK") → False),
          iff_of_true rfl ⟨rfl, rfl⟩,
          iff_of_true rfl ⟨rfl, _, rfl, rfl⟩,
          iff_of_false (fun hh => nomatch hh) (fun hhh => by obtain ⟨_, c2, hc, hb⟩ := hhh; cases Option.some.inj hc; exact nomatch hb),
          iff_of_false (fun hh => nomatch hh) (fun hhh => by obtain ⟨_, c2, hc, hb⟩ := hhh; cases Option.some.inj hc; exact nomatch hb)⟩
      | Lte v =>
        exact ⟨_,
          rfl,
          rfl,
          rfl,
          (by decide : ("#PK") ∈ tokens ("#PK = :PK AND #SK <= :SK")),
          (by decide : (":PK") ∈ tokens ("#PK = :PK AND #SK <= :SK")),
          iff_of_true rfl (by decide : ("#SK") ∈ tokens ("#PK = :PK AND #SK <= :SK")),
          iff_of_true rfl (by decide : (":SK") ∈ tokens ("#PK = :PK AND #SK <= :SK")),
          iff_of_false (fun hh => nomatch hh) (by decide : (":SK_FROM") ∈ tokens ("#PK = :PK AND #SK <= :SK") → False),
          iff_of_false (fun hh => nomatch hh) (by decide : (":SK_TO") ∈ tokens ("#PK = :PK AND #SK <= :SK") → False),
          iff_of_true rfl ⟨rfl, rfl⟩,
          iff_of_true rfl ⟨rfl, _, rfl, rfl⟩,
          iff_of_false (fun hh => nomatch hh) (fun hhh => by obtain ⟨_, c2, hc, hb⟩ := hhh; cases Option.some.inj hc; exact nomatch hb),
          iff_of_false (fun hh => nomatch hh) (fun hhh => by obtain ⟨_, c2, hc, hb⟩ := hhh; cases Option.some.inj hc; exact nomatch hb)⟩
      | Gt v =>
        exact ⟨_,
          rfl,
          rfl,
          rfl,
          (by decide : ("#PK") ∈ tokens ("#PK = :PK AND #SK > :SK")),
          (by decide : (":PK") ∈ tokens ("#PK = :PK AND #SK > :SK")),
          iff_of_true rfl (by decide : ("#SK") ∈ tokens ("#PK = :PK AND #SK > :SK")),
          iff_of_true rfl (by decide : (":SK") ∈ tokens ("#PK = :PK AND #SK > :SK")),
          iff_of_false (fun hh => nomatch hh) (by decide : (":SK_FROM") ∈ tokens ("#PK = :PK AND #SK > :SK") → False),
          iff_of_false (fun hh => nomatch hh) (by decide : (":SK_TO") ∈ tokens ("#PK = :PK AND #SK > :SK") → False),
          iff_of_true rfl ⟨rfl, rfl⟩,
          iff_of_true rfl ⟨rfl, _, rfl, rfl⟩,
          iff_of_false (fun hh => nomatch hh) (fun hhh => by obtain ⟨_, c2, hc, hb⟩ := hhh; cases Option.some.inj hc; exact nomatch hb),
          iff_of_false (fun hh => nomatch hh) (fun hhh => by obtain ⟨_, c2, hc, hb⟩ := hhh; cases Option.some.inj hc; exact nomatch hb)⟩
      | Gte v =>
        exact ⟨_,
          rfl,
          rfl,
          rfl,
          (by decide : ("#PK") ∈ tokens ("#PK = :PK AND #SK >= :SK")),
          (by decide : (":PK") ∈ tokens ("#PK = :PK AND #SK >= :SK")),
          iff_of_true rfl (by decide : ("#SK") ∈ tokens ("#PK = :PK AND #SK >= :SK")),
          iff_of_true rfl (by decide : (":SK") ∈ tokens ("#PK = :PK AND #SK >= :SK")),
          iff_of_false (fun hh => nomatch hh) (by decide : (":SK_FROM") ∈ tokens ("#PK = :PK AND #SK >= :SK") → False),
          iff_of_false (fun hh => nomatch hh) (by decide : (":SK_TO") ∈ tokens ("#PK = :PK AND #SK >= :SK") → False),
          iff_of_true rfl ⟨rfl, rfl⟩,
          iff_of_true rfl ⟨rfl, _, rfl, rfl⟩,
          iff_of_false (fun hh => nomatch hh) (fun hhh => by obtain ⟨_, c2, hc, hb⟩ := hhh; cases Option.some.inj hc; exact nomatch hb),
          iff_of_false (fun hh => nomatch hh) (fun hhh => by obtain ⟨_, c2, hc, hb⟩ := hhh; cases Option.some.inj hc; exact nomatch hb)⟩
      | BeginsWith v =>
        exact ⟨_,
          rfl,
          rfl,
          rfl,
          (by decide : ("#PK") ∈ tokens ("#PK = :PK AND begins_with (#SK, :SK)")),
          (by decide : (":PK") ∈ tokens ("#PK = :PK AND begins_with (#SK, :SK)")),
          iff_of_true rfl (by decide : ("#SK") ∈ tokens ("#PK = :PK AND begins_with (#SK, :SK)")),
          iff_of_true rfl (by decide : (":SK") ∈ tokens ("#PK = :PK AND begins_with (#SK, :SK)")),
          iff_of_false (fun hh => nomatch hh) (by decide : (":SK_FROM") ∈ tokens ("#PK = :PK AND begins_with (#SK, :SK)") → False),
          iff_of_false (fun hh => nomatch hh) (by decide : (":SK_TO") ∈ tokens ("#PK = :PK AND begins_with (#SK, :SK)") → False),
          iff_of_true rfl ⟨rfl, rfl⟩,
          iff_of_true rfl ⟨rfl, _, rfl, rfl⟩,
          iff_of_false (fun hh => nomatch hh) (fun hhh => by obtain ⟨_, c2, hc, hb⟩ := hhh; cases Option.some.inj hc; exact nomatch hb),
          iff_of_false (fun hh => nomatch hh) (fun hhh => by obtain ⟨_, c2, hc, hb⟩ := hhh; cases Option.some.inj hc; exact nomatch hb)⟩
      | Between f t =>
        exact ⟨_,
          rfl,
          rfl,
          rfl,
          (by decide : ("#PK") ∈ tokens ("#PK = :PK AND #SK BETWEEN :SK_FROM AND :SK_TO")),
          (by decide : (":PK") ∈ tokens ("#PK = :PK AND #SK BETWEEN :SK_FROM AND :SK_TO")),
          iff_of_true rfl (by decide : ("#SK") ∈ tokens ("#PK = :PK AND #SK BETWEEN :SK_FROM AND :SK_TO")),
          iff_of_false (fun hh => nomatch hh) (by decide : (":SK") ∈ tokens ("#PK = :PK AND #SK BETWEEN :SK_FROM AND :SK_TO") → False),
          iff_of_true rfl (by decide : (":SK_FROM") ∈ tokens ("#PK = :PK AND #SK BETWEEN :SK_FROM AND :SK_TO")),
          iff_of_true rfl (by decide : (":SK_TO") ∈ tokens ("#PK = :PK AND #SK BETWEEN :SK_FROM AND :SK_TO")),
          iff_of_true rfl ⟨rfl, rfl⟩,
          iff_of_false (fun hh => nomatch hh) (fun hhh => by obtain ⟨_, c2, hc, hb⟩ := hhh; cases Option.some.inj hc; exact nomatch hb),
          iff_of_true rfl ⟨rfl, _, rfl, rfl⟩,
          iff_of_true rfl ⟨rfl, _, rfl, rfl⟩⟩

/-- C10 witness: a composite-schema builder with a between condition has the
partition value bound at `:PK`. -/
theorem query_key_bindings_match_expression_witness :
    (Query.QueryOperation.mk ("pk attr") (some ("sk attr")) (some (AttributeValue.S "a"))
        (some (Query.SkCondition.Between (AttributeValue.S "b") (AttributeValue.S "c")))
        none none).pk = some (AttributeValue.S "a")
  ∧ ∃ values,
      (Query.QueryOperation.mk ("pk attr") (some ("sk attr")) (some (AttributeValue.S "a"))
          (some (Query.SkCondition.Between (AttributeValue.S "b") (AttributeValue.S "c")))
          none none).key_expression_attribute_values = some values
      ∧ values.get (":PK") = some (AttributeValue.S "a") := by
  refine ⟨rfl, ?_⟩
  obtain ⟨values, h1, _, h3, _⟩ :=
    query_key_bindings_match_expression
      (Query.QueryOperation.mk ("pk attr") (some ("sk attr")) (some (AttributeValue.S "a"))
        (some (Query.SkCondition.Between (AttributeValue.S "b") (AttributeValue.S "c")))
        none none)
      (AttributeValue.S "a") rfl
  exact ⟨values, h1, h3⟩

end DynamoMapper

namespace DynamoMapper

/-- C2 witness: a partition-only builder with a sort condition set still
yields `#PK = :PK` and a `:PK`-only binding map. -/
theorem query_partition_only_schema_witness :
    (Query.QueryOperation.mk ("pk") none (some (AttributeValue.S "x"))
        (some (Query.SkCondition.Eq (AttributeValue.S "y"))) none none).key_condition_expression
      = "#PK = :PK"
  ∧ ∃ m, (Query.QueryOperation.mk ("pk") none (some (AttributeValue.S "x"))
        (some (Query.SkCondition.Eq (AttributeValue.S "y"))) none none).key_expression_attribute_values
      = some m
    ∧ m.get (":PK") = some (AttributeValue.S "x")
    ∧ m.get (":SK") = none := by
  obtain ⟨h1, m, h2, h3, h4⟩ :=
    query_partition_only_schema ("pk") (AttributeValue.S "x")
      (some (Query.SkCondition.Eq (AttributeValue.S "y"))) none none
  exact ⟨h1, m, h2, h3, h4 (":SK") (by decide)⟩

end DynamoMapper
